import Mathlib

/-!
Shallow embedding of the user service in `ozeemandias/auth`:
the request-handling layer of `src/unnamed/part_000` (the gRPC server backed
by a `users` table) together with the store semantics fixed by the migration
`src/migrations/20231031143226_create_users_table.sql`.

Strings are Lean `String`s. Go's `strings.TrimSpace`, `strings.ToLower`
and `strings.ToUpper` are embedded as the character-list functions
`trimSpace`, `toLower`, `toUpper` below (leading/trailing whitespace
removal and ASCII case mapping, which is all the service's inputs exercise).
Timestamps are `Nat` (the store's clock is passed explicitly as `now`).
Fallible operations return `Except`.
-/

deriving instance DecidableEq for Except

namespace Auth

/-- Whitespace as `strings.TrimSpace` sees it (ASCII whitespace characters;
the service only ever trims these). -/
def isSpace (c : Char) : Bool :=
  c = ' ' || c = '\t' || c = '\n' || c = '\r' || c = '\x0b' || c = '\x0c'

/-- `strings.TrimSpace`: drop whitespace from both ends. -/
def trimSpace (s : String) : String :=
  ⟨((s.data.dropWhile isSpace).reverse.dropWhile isSpace).reverse⟩

/-- `strings.ToLower` (ASCII case mapping, characterwise). -/
def toLower (s : String) : String :=
  ⟨s.data.map Char.toLower⟩

/-- `strings.ToUpper` (ASCII case mapping, characterwise). -/
def toUpper (s : String) : String :=
  ⟨s.data.map Char.toUpper⟩

/-- Modelled from the spec: the protobuf `Role` enumeration of
`pkg/user_v1` is generated code that is not under `src/`; the spec fixes the
enumeration over unspecified, user, admin with the zero value unspecified,
"stored as lower-case text matching the enumeration's string form". -/
inductive Role where
  | UNSPECIFIED
  | USER
  | ADMIN
deriving DecidableEq, Repr

/-- Modelled from the spec: `Role.String()` of the generated enum returns the
enumeration value's name, whose lower-case form is the stored text
(`unspecified`, `user`, `admin`). -/
def Role.str : Role → String
  | .UNSPECIFIED => "UNSPECIFIED"
  | .USER => "USER"
  | .ADMIN => "ADMIN"

/-- Modelled from the spec: the generated `Role_value` map from enumeration
value names to values, used by `userRole.Scan` for the case-insensitive
lookup of stored role strings. -/
def Role_value (s : String) : Option Role :=
  if s = "UNSPECIFIED" then some .UNSPECIFIED
  else if s = "USER" then some .USER
  else if s = "ADMIN" then some .ADMIN
  else none

/-- A value handed to a `Scan` target by the database driver: SQL NULL,
a string, or a value of a type the null-string scan cannot convert. -/
inductive ScanValue where
  | null
  | str (s : String)
  | unsupported
deriving DecidableEq

/-- `database/sql.NullString`: a string plus a validity flag
(`valid = false` means the scanned value was SQL NULL). -/
structure NullString where
  string : String
  valid : Bool
deriving DecidableEq, Repr

/-- `sql.NullString.Scan`: NULL yields an invalid (empty) string without
error, strings convert, and an inconvertible value is an error. -/
def nullStringScan : ScanValue → Except String NullString
  | .null => .ok ⟨"", false⟩
  | .str s => .ok ⟨s, true⟩
  | .unsupported => .error "unsupported Scan"

/-- `userRole.Scan` from `src/unnamed/part_000`: scan the driver value into a
null-string; propagate its error; NULL maps to `UNSPECIFIED`; otherwise look
the upper-cased string up in `Role_value`, defaulting to `UNSPECIFIED`. -/
def userRoleScan (v : ScanValue) : Except String Role :=
  match nullStringScan v with
  | .error e => .error e
  | .ok ns =>
    if ns.valid = false then .ok .UNSPECIFIED
    else
      match Role_value (toUpper ns.string) with
      | some val => .ok val
      | none => .ok .UNSPECIFIED

/-! ## Request and response messages (`pkg/user_v1`, shapes fixed by §6 of
the spec and by the field accesses in `src/unnamed/part_000`) -/

structure CreateRequest where
  name : String
  email : String
  password : String
  role : Role
deriving DecidableEq

structure CreateResponse where
  id : Int
deriving DecidableEq, Repr

structure GetRequest where
  id : Int
deriving DecidableEq

structure GetResponse where
  id : Int
  name : String
  email : String
  role : Role
  createdAt : Nat
  updatedAt : Nat
deriving DecidableEq, Repr

/-- `UpdateRequest`: `email` and `name` are optional wrapper fields
(`nil` pointer ↦ `none`); `role` is a plain enum whose zero value
`UNSPECIFIED` acts as the absent sentinel. -/
structure UpdateRequest where
  id : Int
  email : Option String
  name : Option String
  role : Role
deriving DecidableEq

structure DeleteRequest where
  id : Int
deriving DecidableEq

/-- gRPC status codes that could in principle distinguish error kinds;
the server only ever uses `Internal` (`codes.Internal`). -/
inductive GrpcCode where
  | Internal
  | NotFound
  | AlreadyExists
  | InvalidArgument
deriving DecidableEq, Repr

/-- A gRPC error as built by `status.Errorf(code, msg)`. -/
structure GrpcError where
  code : GrpcCode
  msg : String
deriving DecidableEq, Repr

/-! ## The store (`users` table per the migration) -/

/-- A row of the `users` table. `role` is stored as text of the
`user_role` enum type; timestamps are modelled as `Nat`. -/
structure Row where
  id : Int
  name : String
  email : String
  password : String
  role : String
  created_at : Nat
  updated_at : Nat
deriving DecidableEq, Repr

/-- The `users` table plus the `SERIAL` id sequence. -/
structure DB where
  rows : List Row
  nextId : Int
deriving DecidableEq, Repr

/-- The `user_role` enum of the migration: `CREATE TYPE "user_role" AS ENUM
('user', 'admin')` — only these two strings are storable in `role`. -/
def dbRoleValid (s : String) : Bool :=
  s = "user" || s = "admin"

/-- Store invariants guaranteed by the migration's constraints and the
`SERIAL` sequence: ids, emails and names pairwise distinct, every stored
role a valid `user_role` value. -/
def DB.wf (db : DB) : Prop :=
  (∀ r ∈ db.rows, dbRoleValid r.role = true) ∧
  db.rows.Pairwise (fun a b => a.id ≠ b.id ∧ a.email ≠ b.email ∧ a.name ≠ b.name)

instance (db : DB) : Decidable db.wf := by
  unfold DB.wf; infer_instance

/-- The column values of the INSERT built by `Create`. -/
structure InsertValues where
  name : String
  email : String
  password : String
  role : String
deriving DecidableEq

/-- Store semantics of `INSERT INTO users (name,email,password,role) VALUES
(...) RETURNING id` under the migration's constraints: the role value must
belong to the `user_role` enum, `email` and `name` must be unique;
`created_at`/`updated_at` default to the current time; the `SERIAL`
sequence assigns the id. -/
def dbInsert (now : Nat) (db : DB) (v : InsertValues) : Except String (DB × Int) :=
  if dbRoleValid v.role = false then
    .error "invalid input value for enum user_role"
  else if db.rows.any (fun r => r.email = v.email) then
    .error "duplicate key value violates unique constraint users_email_key"
  else if db.rows.any (fun r => r.name = v.name) then
    .error "duplicate key value violates unique constraint users_name_key"
  else
    .ok (⟨db.rows ++ [⟨db.nextId, v.name, v.email, v.password, v.role, now, now⟩],
          db.nextId + 1⟩, db.nextId)

/-- `SELECT ... FROM users WHERE id = $1`: the first row with the given id. -/
def findRow (db : DB) (id : Int) : Option Row :=
  db.rows.find? (fun r => r.id = id)

/-- A value of a SET clause in the UPDATE builder: a bound string parameter
or the raw expression `NOW()`. -/
inductive SetValue where
  | strVal (s : String)
  | nowExpr
deriving DecidableEq

/-- Apply one SET clause of the UPDATE statement to a row. -/
def applySet (now : Nat) (row : Row) : String × SetValue → Row
  | ("email", .strVal s) => { row with email := s }
  | ("name", .strVal s) => { row with name := s }
  | ("role", .strVal s) => { row with role := s }
  | ("updated_at", .nowExpr) => { row with updated_at := now }
  | _ => row

/-- Apply the SET clauses of the UPDATE statement in order. -/
def applySets (now : Nat) (sets : List (String × SetValue)) (row : Row) : Row :=
  sets.foldl (applySet now) row

/-- The `users` rows after the SET clauses hit every row matching the
WHERE id. -/
def dbUpdateRows (now : Nat) (rows : List Row) (id : Int)
    (sets : List (String × SetValue)) : List Row :=
  rows.map (fun r => if r.id = id then applySets now sets r else r)

/-- The migration's constraints checked on the rewritten rows: every row the
statement touched must keep a valid `user_role` value and an `email` and
`name` unique against the untouched rows. -/
def dbUpdateConstraintsOk (rows : List Row) (id : Int) : Bool :=
  (rows.filter (fun r => r.id = id)).all (fun c => dbRoleValid c.role &&
    (rows.filter (fun r => ¬ r.id = id)).all
      (fun o => o.email ≠ c.email && o.name ≠ c.name))

/-- Store semantics of `UPDATE users SET ... WHERE id = $k`: every row with
the given id is rewritten by the SET clauses; the migration's constraints
are checked on the rewritten rows; the affected-row count (rows matching
the WHERE clause) is returned. -/
def dbUpdateExec (now : Nat) (db : DB) (id : Int)
    (sets : List (String × SetValue)) : Except String (DB × Nat) :=
  if dbUpdateConstraintsOk (dbUpdateRows now db.rows id sets) id then
    .ok (⟨dbUpdateRows now db.rows id sets, db.nextId⟩,
         (db.rows.filter (fun r => r.id = id)).length)
  else
    .error "constraint violation on update"

/-- Store semantics of `DELETE FROM users WHERE id = $1`: remove every row
with the given id; return the affected-row count. -/
def dbDeleteExec (db : DB) (id : Int) : DB × Nat :=
  (⟨db.rows.filter (fun r => ¬ r.id = id), db.nextId⟩,
   (db.rows.filter (fun r => r.id = id)).length)

/-! ## The four server operations (`src/unnamed/part_000`) -/

/-- The VALUES row `Create` binds: name trimmed, email trimmed and
lower-cased, the bcrypt hash of the password, and the lower-cased string
form of the role. `hash` is the external `bcrypt.GenerateFromPassword` at
`bcrypt.MinCost` (an out-of-scope collaborator, passed as a parameter). -/
def createInsertValues (hash : String → String) (req : CreateRequest) : InsertValues :=
  ⟨trimSpace req.name, toLower (trimSpace req.email), hash req.password,
   toLower req.role.str⟩

/-- `server.Create`: hash the password, build the INSERT, execute it, and
return the store-assigned id; any store failure surfaces as
`codes.Internal`. (`hashAndSalt` cannot fail at the fixed valid cost
`bcrypt.MinCost`, so the hashing-error branch is dead and `hash` is total.) -/
def Create (hash : String → String) (now : Nat) (db : DB) (req : CreateRequest) :
    Except GrpcError (DB × CreateResponse) :=
  match dbInsert now db (createInsertValues hash req) with
  | .error e => .error ⟨.Internal, "failed to insert user: " ++ e⟩
  | .ok (db2, id) => .ok (db2, ⟨id⟩)

/-- `server.Get`: select the row by id (no row, like any store failure,
surfaces as `codes.Internal`), scan the stored role text through
`userRole.Scan`, and build the response. -/
def Get (db : DB) (req : GetRequest) : Except GrpcError GetResponse :=
  match findRow db req.id with
  | none => .error ⟨.Internal, "failed to select user: no rows in result set"⟩
  | some row =>
    match userRoleScan (.str row.role) with
    | .error e => .error ⟨.Internal, "failed to select user: " ++ e⟩
    | .ok role =>
      .ok ⟨row.id, row.name, row.email, role, row.created_at, row.updated_at⟩

/-- The SET clauses `server.Update` accumulates, in source order: `email`
only if present and non-empty after trimming (lower-cased), `name` only if
present and non-empty after trimming, `role` only if not the `UNSPECIFIED`
sentinel (lower-cased string form), and `updated_at = NOW()` always. -/
def updateSetClauses (req : UpdateRequest) : List (String × SetValue) :=
  (match req.email with
   | some e => if trimSpace e ≠ "" then [("email", .strVal (toLower (trimSpace e)))] else []
   | none => []) ++
  (match req.name with
   | some n => if trimSpace n ≠ "" then [("name", .strVal (trimSpace n))] else []
   | none => []) ++
  (if req.role ≠ .UNSPECIFIED then [("role", .strVal (toLower req.role.str))] else []) ++
  [("updated_at", .nowExpr)]

/-- `server.Update`: build the UPDATE from the supplied fields and execute
it; the affected-row count is only logged, never inspected, so zero rows is
success; any store failure surfaces as `codes.Internal`. -/
def Update (now : Nat) (db : DB) (req : UpdateRequest) :
    Except GrpcError (DB × Unit) :=
  match dbUpdateExec now db req.id (updateSetClauses req) with
  | .error e => .error ⟨.Internal, "failed to update user: " ++ e⟩
  | .ok (db2, _) => .ok (db2, ())

/-- `server.Delete`: execute the DELETE keyed by id; the affected-row count
is only logged, so deleting an absent id is success. -/
def Delete (db : DB) (req : DeleteRequest) : Except GrpcError (DB × Unit) :=
  let res := dbDeleteExec db req.id
  .ok (res.1, ())

/-! ## Concrete fixtures used by witnesses -/

/-- An empty store whose id sequence starts at 1. -/
def db0 : DB := ⟨[], 1⟩

/-- A concrete stand-in for the external bcrypt hasher: total, and its
output never equals its input (it is one character longer). -/
def hash0 : String → String := fun p => p ++ "#"

/-- A concrete valid create request. -/
def req0 : CreateRequest := ⟨" Alice ", " A@B.c ", "pw", .USER⟩

/-- The store after `Create hash0 7 db0 req0`. -/
def db1 : DB := ⟨[⟨1, "Alice", "a@b.c", "pw#", "user", 7, 7⟩], 2⟩

/-! ## Helper lemmas -/

/-- Rewriting rows with a WHERE id matching none of them is the identity. -/
theorem dbUpdateRows_no_match (now : Nat) (id : Int)
    (sets : List (String × SetValue)) (l : List Row) (h : ∀ r ∈ l, r.id ≠ id) :
    dbUpdateRows now l id sets = l := by
  unfold dbUpdateRows
  induction l with
  | nil => rfl
  | cons x t ih =>
    rw [List.map_cons, if_neg (h x (List.mem_cons_self x t)),
      ih (fun a ha => h a (List.mem_cons_of_mem x ha))]

/-- Filtering for an id that no row has yields the empty list. -/
theorem filter_id_nil (id : Int) (l : List Row) (h : ∀ r ∈ l, r.id ≠ id) :
    l.filter (fun r => r.id = id) = [] :=
  List.filter_eq_nil_iff.mpr (by simpa using h)

/-- Anatomy of a successful `Create`: the store gained exactly the one
normalized row at the fresh id, and the response returns that id. -/
theorem create_ok_shape (hash : String → String) (now : Nat) (db : DB)
    (req : CreateRequest) (db2 : DB) (resp : CreateResponse)
    (hok : Create hash now db req = .ok (db2, resp)) :
    db2 = ⟨db.rows ++ [⟨db.nextId, trimSpace req.name, toLower (trimSpace req.email),
            hash req.password, toLower req.role.str, now, now⟩], db.nextId + 1⟩ ∧
    resp = ⟨db.nextId⟩ := by
  unfold Create at hok
  cases hd : dbInsert now db (createInsertValues hash req) with
  | error e => rw [hd] at hok; cases hok
  | ok p =>
    obtain ⟨db', id'⟩ := p
    rw [hd] at hok
    injection hok with h1
    injection h1 with hdb hresp
    unfold dbInsert at hd
    split_ifs at hd
    injection hd with h2
    injection h2 with h3 h4
    subst hdb; subst hresp; subst h3; subst h4
    exact ⟨rfl, rfl⟩

/-- The SET list containing only `updated_at = NOW()` rewrites exactly that
field. -/
theorem applySets_now_only (now : Nat) (r : Row) :
    applySets now [("updated_at", SetValue.nowExpr)] r = { r with updated_at := now } :=
  rfl

/-- The distinctness relation of `DB.wf` is symmetric. -/
theorem wfRelSymm :
    Symmetric (fun a b : Row => a.id ≠ b.id ∧ a.email ≠ b.email ∧ a.name ≠ b.name) :=
  fun _ _ h => ⟨h.1.symm, h.2.1.symm, h.2.2.symm⟩

/-- `find?` over a list ending in the unique match returns that element. -/
theorem find?_append_last {α : Type} (p : α → Bool) (l : List α) (x : α)
    (h : ∀ a ∈ l, p a = false) (hx : p x = true) :
    (l ++ [x]).find? p = some x := by
  induction l with
  | nil => simp [List.find?, hx]
  | cons a t ih =>
    rw [List.cons_append, List.find?_cons, h a (List.mem_cons_self a t)]
    exact ih (fun b hb => h b (List.mem_cons_of_mem a hb))

/-- `Get` on a store whose last row carries a fresh id returns that row,
with the role mapped through `userRole.Scan`. -/
theorem get_appended_row (rows : List Row) (row : Row) (n : Int) (ro : Role)
    (hfresh : ∀ r ∈ rows, r.id ≠ row.id)
    (hscan : userRoleScan (.str row.role) = .ok ro) :
    Get ⟨rows ++ [row], n⟩ ⟨row.id⟩ =
      .ok ⟨row.id, row.name, row.email, ro, row.created_at, row.updated_at⟩ := by
  unfold Get findRow
  rw [find?_append_last _ rows row (fun a ha => by simp [hfresh a ha]) (by simp)]
  show ((match userRoleScan (.str row.role) with
    | .error e => Except.error (GrpcError.mk .Internal ("failed to select user: " ++ e))
    | .ok role =>
        Except.ok (GetResponse.mk row.id row.name row.email role
          row.created_at row.updated_at)) : Except GrpcError GetResponse) = _
  rw [hscan]

/-! ## Claim theorems -/

/-- Claim C2: for every string value read from the role column, `userRole.Scan`
is total — it never returns an error — and a string whose upper-cased form
matches no enumeration name maps to `UNSPECIFIED`. -/
theorem C2_role_scan_total (s : String) :
    (∃ r, userRoleScan (.str s) = .ok r) ∧
    (Role_value (toUpper s) = none → userRoleScan (.str s) = .ok .UNSPECIFIED) := by
  cases hv : Role_value (toUpper s) with
  | none =>
    have h2 : userRoleScan (.str s) = .ok .UNSPECIFIED := by
      simp [userRoleScan, nullStringScan, hv]
    exact ⟨⟨_, h2⟩, fun _ => h2⟩
  | some r =>
    have h2 : userRoleScan (.str s) = .ok r := by
      simp [userRoleScan, nullStringScan, hv]
    exact ⟨⟨r, h2⟩, fun hn => by simp [hv] at hn⟩

/-- Witness for C2 at the concrete unmapped string "banana". -/
theorem C2_role_scan_total_witness :
    userRoleScan (.str "banana") = .ok .UNSPECIFIED :=
  (C2_role_scan_total "banana").2 (by decide)

/-- Claim C9: a SQL NULL in the role column scans to `UNSPECIFIED` with no
error, and in general any driver value that the null-string scan accepts
but marks invalid (valid = false, which is exactly the NULL case) scans to
`UNSPECIFIED` with no error. -/
theorem C9_null_role_scans_to_unspecified :
    userRoleScan .null = .ok .UNSPECIFIED ∧
    ∀ v ns, nullStringScan v = .ok ns → ns.valid = false →
      userRoleScan v = .ok .UNSPECIFIED := by
  refine ⟨by decide, fun v ns h hv => ?_⟩
  simp [userRoleScan, h, hv]

/-- Witness for C9 at the concrete NULL driver value. -/
theorem C9_null_role_scans_to_unspecified_witness :
    userRoleScan .null = .ok .UNSPECIFIED :=
  C9_null_role_scans_to_unspecified.2 .null ⟨"", false⟩ rfl rfl

/-- Claim C1 (refuted as stated; the code contradicts itself): `Create` with
the zero/unspecified role renders the role value "unspecified", but the
migration's `user_role` enum admits only "user" and "admin", so the INSERT
is rejected by the store and `Create` fails with an internal error instead
of succeeding. -/
theorem C1_unspecified_create_fails (hash : String → String) (now : Nat)
    (db : DB) (req : CreateRequest) (hrole : req.role = .UNSPECIFIED) :
    (createInsertValues hash req).role = "unspecified" ∧
    dbRoleValid "unspecified" = false ∧
    Create hash now db req =
      .error ⟨.Internal, "failed to insert user: invalid input value for enum user_role"⟩ := by
  obtain ⟨n, em, pw, ro⟩ := req
  simp only at hrole
  subst hrole
  have hv : dbRoleValid (toLower Role.UNSPECIFIED.str) = false := by decide
  exact ⟨rfl, by decide, by simp [Create, dbInsert, createInsertValues, hv]⟩

/-- Witness for C1's failure theorem at a concrete request. -/
theorem C1_unspecified_create_fails_witness :
    Create hash0 7 db0 ⟨"Bob", "b@b.b", "pw", .UNSPECIFIED⟩ =
      .error ⟨.Internal, "failed to insert user: invalid input value for enum user_role"⟩ :=
  (C1_unspecified_create_fails hash0 7 db0 ⟨"Bob", "b@b.b", "pw", .UNSPECIFIED⟩ rfl).2.2

/-- Claim C10: `Create` performs no validation of the empty password — it
hashes "" and hands the insert to the store like any other request, the
outcome being exactly the store's verdict on those values. -/
theorem C10_empty_password_not_rejected (hash : String → String) (now : Nat)
    (db : DB) (req : CreateRequest) (hp : req.password = "") :
    (createInsertValues hash req).password = hash "" ∧
    (∀ db2 id, dbInsert now db (createInsertValues hash req) = .ok (db2, id) →
        Create hash now db req = .ok (db2, ⟨id⟩)) ∧
    (∀ e, dbInsert now db (createInsertValues hash req) = .error e →
        Create hash now db req = .error ⟨.Internal, "failed to insert user: " ++ e⟩) := by
  refine ⟨by simp [createInsertValues, hp], fun db2 id h => ?_, fun e h => ?_⟩ <;>
    simp [Create, h]

/-- Witness for C10: a concrete empty-password Create goes through to the
store and succeeds. -/
theorem C10_empty_password_not_rejected_witness :
    Create hash0 7 db0 ⟨"n", "e", "", .USER⟩ =
      .ok (⟨[⟨1, "n", "e", "#", "user", 7, 7⟩], 2⟩, ⟨1⟩) :=
  (C10_empty_password_not_rejected hash0 7 db0 ⟨"n", "e", "", .USER⟩ rfl).2.1
    ⟨[⟨1, "n", "e", "#", "user", 7, 7⟩], 2⟩ 1 (by decide)

/-- Claim C4: the UPDATE statement targets exactly these columns — `email`
iff present and non-empty after trimming (and then with the lower-cased
trimmed value), `name` iff present and non-empty after trimming, `role` iff
the supplied role is not the `UNSPECIFIED` sentinel, and `updated_at` on
every call — and no column outside these four. -/
theorem C4_update_targets_exact_columns (req : UpdateRequest) :
    (("email" ∈ (updateSetClauses req).map Prod.fst) ↔
        ∃ e, req.email = some e ∧ trimSpace e ≠ "") ∧
    (("name" ∈ (updateSetClauses req).map Prod.fst) ↔
        ∃ n, req.name = some n ∧ trimSpace n ≠ "") ∧
    (("role" ∈ (updateSetClauses req).map Prod.fst) ↔ req.role ≠ .UNSPECIFIED) ∧
    ("updated_at" ∈ (updateSetClauses req).map Prod.fst) ∧
    (∀ e, req.email = some e → trimSpace e ≠ "" →
        ("email", SetValue.strVal (toLower (trimSpace e))) ∈ updateSetClauses req) ∧
    (∀ c ∈ (updateSetClauses req).map Prod.fst,
        c = "email" ∨ c = "name" ∨ c = "role" ∨ c = "updated_at") := by
  obtain ⟨i, oe, onm, ro⟩ := req
  by_cases hr : ro = Role.UNSPECIFIED <;>
    rcases oe with _ | e <;> rcases onm with _ | n <;>
      first
        | (by_cases he : trimSpace e = "" <;> by_cases hn : trimSpace n = "" <;>
            simp [updateSetClauses, hr, he, hn])
        | (by_cases he : trimSpace e = "" <;> simp [updateSetClauses, hr, he])
        | (by_cases hn : trimSpace n = "" <;> simp [updateSetClauses, hr, hn])
        | simp [updateSetClauses, hr]

/-- Witness for C4 at a concrete request: the unconditional `updated_at`
column of its statement. -/
theorem C4_update_targets_exact_columns_witness :
    "updated_at" ∈ (updateSetClauses ⟨1, some " X@Y.z ", some "  ", .ADMIN⟩).map Prod.fst :=
  (C4_update_targets_exact_columns ⟨1, some " X@Y.z ", some "  ", .ADMIN⟩).2.2.2.1

/-- Claim C7: a Get whose id matches no row fails, and every error any of
the four operations returns carries the single generic internal code — no
not-found or already-exists kind is ever produced. -/
theorem C7_every_error_is_internal :
    (∀ db id, findRow db id = none →
        Get db ⟨id⟩ = .error ⟨.Internal, "failed to select user: no rows in result set"⟩) ∧
    (∀ hash now db req e, Create hash now db req = .error e → e.code = .Internal) ∧
    (∀ db req e, Get db req = .error e → e.code = .Internal) ∧
    (∀ now db req e, Update now db req = .error e → e.code = .Internal) ∧
    (∀ db req e, Delete db req = .error e → e.code = .Internal) := by
  refine ⟨fun db id h => by simp [Get, h], fun hash now db req e h => ?_,
    fun db req e h => ?_, fun now db req e h => ?_, fun db req e h => ?_⟩
  · unfold Create at h
    split at h
    · cases h; rfl
    · cases h
  · unfold Get at h
    split at h
    · cases h; rfl
    · split at h
      · cases h; rfl
      · cases h
  · unfold Update at h
    split at h
    · cases h; rfl
    · cases h
  · unfold Delete at h
    cases h

/-- Witness for C7: Get on the empty store fails with the internal error. -/
theorem C7_every_error_is_internal_witness :
    Get db0 ⟨1⟩ = .error ⟨.Internal, "failed to select user: no rows in result set"⟩ :=
  C7_every_error_is_internal.1 db0 1 rfl

/-- Claim C3: every successful Create persisted a row, at the returned id,
whose name is the trimmed input name, whose email is the trimmed,
lower-cased input email, and whose password is the hash — never the
plaintext (the external bcrypt hasher never returns its input). -/
theorem C3_create_persists_normalized (hash : String → String) (now : Nat)
    (db : DB) (req : CreateRequest) (db2 : DB) (resp : CreateResponse)
    (hhash : ∀ p, hash p ≠ p)
    (hok : Create hash now db req = .ok (db2, resp)) :
    ∃ row ∈ db2.rows, row.id = resp.id ∧
      row.name = trimSpace req.name ∧
      row.email = toLower (trimSpace req.email) ∧
      row.password = hash req.password ∧
      row.password ≠ req.password := by
  obtain ⟨hdb, hresp⟩ := create_ok_shape hash now db req db2 resp hok
  subst hdb; subst hresp
  exact ⟨_, List.mem_append_right _ (List.mem_singleton_self _),
    rfl, rfl, rfl, rfl, hhash _⟩

/-- Witness for C3 at a concrete request and hasher. -/
theorem C3_create_persists_normalized_witness :
    ∃ row ∈ db1.rows, row.id = (CreateResponse.mk 1).id ∧
      row.name = trimSpace req0.name ∧
      row.email = toLower (trimSpace req0.email) ∧
      row.password = hash0 req0.password ∧
      row.password ≠ req0.password :=
  C3_create_persists_normalized hash0 7 db0 req0 db1 ⟨1⟩
    (fun p h => by
      have h2 := congrArg String.length h
      simp only [hash0] at h2
      rw [String.length_append] at h2
      have h3 : String.length "#" = 1 := rfl
      rw [h3] at h2
      omega)
    (by decide)

/-- Claim C6: an Update or Delete whose id matches no row returns the same
empty success as a no-op and leaves the store untouched — zero rows
affected is not an error. -/
theorem C6_absent_id_is_success_noop (now : Nat) (db : DB)
    (ureq : UpdateRequest) (dreq : DeleteRequest)
    (hu : ∀ r ∈ db.rows, r.id ≠ ureq.id) (hd : ∀ r ∈ db.rows, r.id ≠ dreq.id) :
    Update now db ureq = .ok (db, ()) ∧ Delete db dreq = .ok (db, ()) := by
  constructor
  · have hrows := dbUpdateRows_no_match now ureq.id (updateSetClauses ureq) db.rows hu
    have hexec : dbUpdateExec now db ureq.id (updateSetClauses ureq) = .ok (db, 0) := by
      unfold dbUpdateExec
      rw [hrows]
      have hok : dbUpdateConstraintsOk db.rows ureq.id = true := by
        unfold dbUpdateConstraintsOk
        rw [filter_id_nil ureq.id db.rows hu]
        rfl
      rw [if_pos hok, filter_id_nil ureq.id db.rows hu]
      rfl
    simp [Update, hexec]
  · simp only [Delete, dbDeleteExec]
    rw [List.filter_eq_self.mpr (fun a ha => by simp [hd a ha])]

/-- Witness for C6: updating id 5 and deleting id 6 on a store holding only
id 1 both succeed and change nothing. -/
theorem C6_absent_id_is_success_noop_witness :
    Update 9 db1 ⟨5, some "z@z.z", none, .ADMIN⟩ = .ok (db1, ()) ∧
    Delete db1 ⟨6⟩ = .ok (db1, ()) :=
  C6_absent_id_is_success_noop 9 db1 ⟨5, some "z@z.z", none, .ADMIN⟩ ⟨6⟩
    (by decide) (by decide)

/-- Claim C5: an Update with email and name absent and the unspecified role
sentinel executes successfully on a well-formed store and rewrites the
addressed row's `updated_at` to the current time while leaving every other
column of every row unchanged. -/
theorem C5_empty_update_refreshes_updated_at_only (now : Nat) (db : DB)
    (req : UpdateRequest) (hwf : db.wf) (he : req.email = none)
    (hn : req.name = none) (hr : req.role = .UNSPECIFIED) :
    Update now db req =
      .ok (⟨db.rows.map (fun r => if r.id = req.id then { r with updated_at := now }
            else r), db.nextId⟩, ()) := by
  have hsets : updateSetClauses req = [("updated_at", SetValue.nowExpr)] := by
    simp [updateSetClauses, he, hn, hr]
  have hfun : dbUpdateRows now db.rows req.id [("updated_at", SetValue.nowExpr)] =
      db.rows.map (fun r => if r.id = req.id then { r with updated_at := now } else r) := by
    rfl
  have hcon : dbUpdateConstraintsOk
      (db.rows.map (fun r => if r.id = req.id then { r with updated_at := now } else r))
      req.id = true := by
    unfold dbUpdateConstraintsOk
    rw [List.all_eq_true]
    intro c hc
    obtain ⟨hcmem, hcid⟩ := List.mem_filter.mp hc
    obtain ⟨r, hrmem, hfr⟩ := List.mem_map.mp hcmem
    by_cases hrid : r.id = req.id
    · rw [if_pos hrid] at hfr
      subst hfr
      rw [Bool.and_eq_true]
      refine ⟨hwf.1 r hrmem, ?_⟩
      rw [List.all_eq_true]
      intro o ho
      obtain ⟨homem, hoid⟩ := List.mem_filter.mp ho
      obtain ⟨r2, hr2mem, hfr2⟩ := List.mem_map.mp homem
      by_cases hr2id : r2.id = req.id
      · rw [if_pos hr2id] at hfr2
        subst hfr2
        exact absurd hr2id (by simpa using hoid)
      · rw [if_neg hr2id] at hfr2
        subst hfr2
        have hne : r2 ≠ r := fun hEq => hr2id (hEq ▸ hrid)
        have hR := hwf.2.forall wfRelSymm hr2mem hrmem hne
        simp [hR.2.1, hR.2.2]
    · rw [if_neg hrid] at hfr
      subst hfr
      exact absurd (by simpa using hcid) hrid
  unfold Update
  rw [hsets]
  unfold dbUpdateExec
  rw [hfun, if_pos hcon]

/-- Witness for C5 on a concrete one-row store. -/
theorem C5_empty_update_refreshes_updated_at_only_witness :
    Update 9 db1 ⟨1, none, none, .UNSPECIFIED⟩ =
      .ok (⟨db1.rows.map (fun r => if r.id = (1 : Int) then { r with updated_at := 9 }
            else r), db1.nextId⟩, ()) :=
  C5_empty_update_refreshes_updated_at_only 9 db1 ⟨1, none, none, .UNSPECIFIED⟩
    (by decide) rfl rfl rfl

/-- Claim C8: writing a role as Create does (lower-cased string form) and
reading it back as Get does (case-insensitive lookup) returns the original
value for every enumeration value; consequently a Get immediately after a
successful Create returns the supplied role, the trimmed name, the trimmed
lower-cased email, and equal creation and update timestamps. -/
theorem C8_create_then_get_round_trip :
    (∀ r : Role, userRoleScan (.str (toLower r.str)) = .ok r) ∧
    (∀ hash now db req db2 resp,
      (∀ r ∈ db.rows, r.id ≠ db.nextId) →
      Create hash now db req = .ok (db2, resp) →
      Get db2 ⟨resp.id⟩ =
        .ok ⟨resp.id, trimSpace req.name, toLower (trimSpace req.email),
             req.role, now, now⟩) := by
  have hrt : ∀ r : Role, userRoleScan (.str (toLower r.str)) = .ok r := by
    intro r; cases r <;> decide
  refine ⟨hrt, fun hash now db req db2 resp hfresh hok => ?_⟩
  obtain ⟨hdb, hresp⟩ := create_ok_shape hash now db req db2 resp hok
  subst hdb; subst hresp
  exact get_appended_row db.rows
    ⟨db.nextId, trimSpace req.name, toLower (trimSpace req.email),
     hash req.password, toLower req.role.str, now, now⟩
    (db.nextId + 1) req.role hfresh (hrt req.role)

/-- Witness for C8: Get right after the concrete Create of `req0` returns
the normalized fields, the supplied role and equal timestamps. -/
theorem C8_create_then_get_round_trip_witness :
    Get db1 ⟨1⟩ = .ok ⟨1, "Alice", "a@b.c", .USER, 7, 7⟩ :=
  C8_create_then_get_round_trip.2 hash0 7 db0 req0 db1 ⟨1⟩
    (by decide) (by decide)

end Auth

/-! ## Executable sanity checks of the embedding on concrete inputs -/

section SanityChecks
open Auth
example : userRoleScan (.str "admin") = .ok .ADMIN := by decide
example : userRoleScan (.str "uNspecified") = .ok .UNSPECIFIED := by decide
example : userRoleScan (.str "banana") = .ok .UNSPECIFIED := by decide
example : userRoleScan .null = .ok .UNSPECIFIED := by decide
example : trimSpace "  a b " = "a b" := by decide
example : toLower (trimSpace " A@B.c ") = "a@b.c" := by decide

example : Create hash0 7 db0 req0 = .ok (db1, ⟨1⟩) := by decide
example : (Create hash0 7 db0 ⟨"x", "y", "p", .UNSPECIFIED⟩).isOk = false := by decide
example : Get ⟨[⟨1, "Alice", "a@b.c", "pw#", "user", 7, 7⟩], 2⟩ ⟨1⟩ =
    .ok ⟨1, "Alice", "a@b.c", .USER, 7, 7⟩ := by decide
example : Update 9 ⟨[⟨1, "Alice", "a@b.c", "pw#", "user", 7, 7⟩], 2⟩ ⟨1, none, none, .UNSPECIFIED⟩ =
    .ok (⟨[⟨1, "Alice", "a@b.c", "pw#", "user", 7, 9⟩], 2⟩, ()) := by decide
example : Update 9 ⟨[⟨1, "Alice", "a@b.c", "pw#", "user", 7, 7⟩], 2⟩ ⟨5, some "n@n.n", none, .ADMIN⟩ =
    .ok (⟨[⟨1, "Alice", "a@b.c", "pw#", "user", 7, 7⟩], 2⟩, ()) := by decide
example : Delete ⟨[⟨1, "Alice", "a@b.c", "pw#", "user", 7, 7⟩], 2⟩ ⟨5⟩ =
    .ok (⟨[⟨1, "Alice", "a@b.c", "pw#", "user", 7, 7⟩], 2⟩, ()) := by decide
example : updateSetClauses ⟨1, some " X@Y.z ", some "  ", .ADMIN⟩ =
    [("email", .strVal "x@y.z"), ("role", .strVal "admin"), ("updated_at", .nowExpr)] := by decide
end SanityChecks
